import Mathlib

set_option maxRecDepth 8000

/-!
Shallow embedding of the Multi-Modal Travel Assistant pipeline.

The definitions below translate `tools.py`, `state.py` and `agent.py` into
Lean. External services (generative-text provider, geocoding search, weather
forecast, photo search) are modelled by explicit environment values that
record which response each network call produces, so that every adapter
becomes a pure function of its arguments and of that environment. Machine
floats that the program only stores and compares (coordinates, temperatures)
are modelled as rationals. A Python function that can fall off its end or
raise is modelled with an `Option` result, `none` standing for the absence of
a proper return value.
-/

namespace TravelAssistant

/-- One entry of the hardcoded city knowledge base (`CITY_DATABASE` in
`tools.py`). -/
structure CityEntry where
  summary : String
  country : String
  latitude : ℚ
  longitude : ℚ
deriving DecidableEq, Repr

/-- Stored summary text for the `"paris"` entry. -/
def parisSummary : String :=
  "Paris, the capital of France, is renowned for its art, fashion, gastronomy, and culture. Famous landmarks include the Eiffel Tower, Louvre Museum, Notre-Dame Cathedral, and Champs-Élysées. The city is known as the \x27City of Light\x27 and offers world-class cuisine, charming cafes, and romantic Seine River views."

/-- Stored summary text for the `"tokyo"` entry. -/
def tokyoSummary : String :=
  "Tokyo, Japan\x27s capital, blends traditional and modern life. It features ancient temples, imperial palaces, and cutting-edge technology. Famous areas include Shibuya, Shinjuku, Asakusa\x27s Senso-ji Temple, and the Imperial Palace. The city is known for its efficient public transport, incredible food scene, and unique pop culture."

/-- Stored summary text for the `"new york"` entry. -/
def newYorkSummary : String :=
  "New York City, often called \x27The Big Apple\x27, is a global center of culture, finance, and entertainment. Iconic landmarks include the Statue of Liberty, Central Park, Times Square, and the Empire State Building. The city offers world-class museums, Broadway shows, diverse neighborhoods, and exceptional dining from around the world."

/-- The `"paris"` entry of the table. -/
def parisEntry : CityEntry := ⟨parisSummary, "France", 48.8566, 2.3522⟩

/-- The `"tokyo"` entry of the table. -/
def tokyoEntry : CityEntry := ⟨tokyoSummary, "Japan", 35.6762, 139.6503⟩

/-- The `"new york"` entry of the table. -/
def newYorkEntry : CityEntry := ⟨newYorkSummary, "USA", 40.7128, -74.0060⟩

/-- The pre-populated knowledge base (`CITY_DATABASE` in `tools.py`),
keyed by lowercase city name. -/
def CITY_DATABASE : List (String × CityEntry) :=
  [("paris", parisEntry), ("tokyo", tokyoEntry), ("new york", newYorkEntry)]

/-- The key set of the table. -/
def dbKeys : List String := CITY_DATABASE.map Prod.fst

/-- Lowercasing of one character, as Python's `str.lower` acts on the
ASCII range (no key or compared name leaves it). -/
def pyLowerChar (c : Char) : Char :=
  if 65 ≤ c.toNat ∧ c.toNat ≤ 90 then Char.ofNat (c.toNat + 32) else c

/-- Python's `str.lower`. -/
def pyLower (s : String) : String := ⟨s.data.map pyLowerChar⟩

/-- The whitespace characters Python's `str.strip` removes (the ASCII
ones; none other occurs in the strings handled here). -/
def isPySpace (c : Char) : Bool :=
  c == ' ' || c == '\t' || c == '\n' || c == '\r' || c == '\x0B' || c == '\x0C'

/-- Python's `str.strip`: drop whitespace from both ends. -/
def pyStrip (s : String) : String :=
  ⟨((s.data.dropWhile isPySpace).reverse.dropWhile isPySpace).reverse⟩

/-- The normalization `city.lower().strip()` used on city names. -/
def pyNormalize (s : String) : String := pyStrip (pyLower s)

/-- Dictionary lookup `CITY_DATABASE[key]` on an already-normalized key. -/
def dbLookup (key : String) : Option CityEntry :=
  (CITY_DATABASE.find? (fun p => p.1 == key)).map Prod.snd

/-- Result shape of `check_vector_store`: the dict
`{"found": ..., "data": ...}`, where `data` is `None` on a miss. -/
structure StoreResult where
  found : Bool
  data : Option CityEntry
deriving DecidableEq, Repr

/-- `check_vector_store` from `tools.py`: normalizes the city with
`city.lower().strip()` and tests table membership. -/
def check_vector_store (city : String) : StoreResult :=
  match dbLookup (pyNormalize city) with
  | some e => ⟨true, some e⟩
  | none => ⟨false, none⟩

/-- Outcome of one generative-model invocation: either the call raises
(quota, not-found, or any other failure — the code treats them all as
"continue to the next model") or it returns a text. -/
inductive ModelResult where
  | err
  | ok (text : String)
deriving DecidableEq, Repr

/-- Environment of `search_city_info`: whether `GEMINI_API_KEY` is set, and
the response of each model tried, in the order of `models_to_try`. -/
structure GeminiEnv where
  hasApiKey : Bool
  responses : List ModelResult

/-- The prioritized model list of `search_city_info`. -/
def models_to_try : List String :=
  ["gemini-3-flash-preview", "gemini-1.5-flash", "gemini-1.5-flash-8b", "gemini-1.5-pro"]

/-- The message returned when no `GEMINI_API_KEY` is configured. -/
def noKeyMessage (city : String) : String :=
  city ++ " is a fascinating destination. To get detailed AI-generated summaries, please add your GEMINI_API_KEY to the .env file."

/-- The final generic fallback of `search_city_info`. -/
def genericFallback (city : String) : String :=
  city ++ " is a vibrant city with rich culture, fascinating history, and world-class attractions. It offers visitors unique experiences through its landmarks, cuisine, and local traditions that make it a must-visit destination."

/-- Text of the first successful model invocation, if any. -/
def firstOk : List ModelResult → Option String
  | [] => none
  | ModelResult.err :: rest => firstOk rest
  | ModelResult.ok t :: _ => some t

/-- `search_city_info` from `tools.py`: without a key, a templated message;
otherwise the trimmed text of the first model call that succeeds; if all
four models fail, a generic fallback sentence. -/
def search_city_info (env : GeminiEnv) (city : String) : String :=
  if env.hasApiKey = false then noKeyMessage city
  else
    match firstOk (env.responses.take models_to_try.length) with
    | some t => pyStrip t
    | none => genericFallback city

/-- One formatted day of the forecast, the dict
`{"date", "temp_max", "temp_min", "precipitation"}`. -/
structure WeatherDay where
  date : String
  temp_max : ℚ
  temp_min : ℚ
  precipitation : ℚ
deriving DecidableEq, Repr

/-- One raw day of the Tomorrow.io response: the `"time"` string and the
optional fields read with `values.get(..., default)`. -/
structure RawDay where
  time : String
  temperatureMax : Option ℚ
  temperatureMin : Option ℚ
  precipitationSum : Option ℚ
deriving DecidableEq, Repr

/-- Outcome of the forecast-service interaction in `get_weather_forecast`:
no credential, a timeout, a request error, any other exception (including
failures while parsing the response), or a parsed daily timeline. -/
inductive WeatherService where
  | noKey
  | timeout
  | requestError
  | otherError
  | ok (timelines : List RawDay)
deriving DecidableEq, Repr

/-- Whether the service interaction produced a parsed timeline. -/
def WeatherService.isOk : WeatherService → Bool
  | WeatherService.ok _ => true
  | _ => false

/-- Rounding to one decimal place, as `round(x, 1)` does on the weather
values. Python rounds ties to even while `round` on `ℚ` rounds them up;
no claim checked below depends on a tie. -/
def round1 (q : ℚ) : ℚ := (round (q * 10) : ℤ) / 10

/-- Formatting of one raw day: first 10 characters of the time stamp and
the rounded values, with defaults 20, 10 and 0. -/
def formatDay (d : RawDay) : WeatherDay :=
  ⟨d.time.take 10,
    round1 (d.temperatureMax.getD 20),
    round1 (d.temperatureMin.getD 10),
    round1 (d.precipitationSum.getD 0)⟩

/-- The synthetic 7-day series built on every fallback path of
`get_weather_forecast`. -/
def fallbackForecast : List WeatherDay :=
  (List.range 7).map (fun i =>
    { date := "2025-12-" ++ toString ((12 + i : ℕ)),
      temp_max := ((20 + i : ℕ) : ℚ),
      temp_min := ((10 + i : ℕ) : ℚ),
      precipitation := 0 })

/-- `get_weather_forecast` from `tools.py`: on a parsed timeline, the first
seven days formatted; on every failure path, the synthetic series. The
coordinates only parameterize the request, whose response the environment
already fixes. -/
def get_weather_forecast (svc : WeatherService) (latitude longitude : ℚ) : List WeatherDay :=
  match svc, latitude, longitude with
  | WeatherService.ok timelines, _, _ => (timelines.take 7).map formatDay
  | _, _, _ => fallbackForecast

/-- Environment of `generate_city_images`: the `PEXELS_API_KEY` value (or
`none` when unset), whether `GEMINI_API_KEY` is set, the response of each of
the three models tried for landmark search terms, the photo-search outcome
per search term (`none` covers a non-200 status, an empty photo list, and a
per-term exception, all of which just skip the term), whether an exception
reaches the function-level handler, and the stream of `random.randint`
draws. -/
structure ImagesEnv where
  pexelsKey : Option String
  hasGeminiKey : Bool
  termResponses : List ModelResult
  photoAt : String → Option String
  outerExc : Bool
  rng : ℕ → ℕ

/-- The four templated default search phrases. -/
def defaultSearchTerms (city : String) : List String :=
  [city ++ " landmark", city ++ " cityscape", city ++ " architecture", city ++ " street"]

/-- Landmark-based search terms from the first model response that splits
into exactly four comma-separated names; a successful response with another
count, like a failed call, moves on to the next model. -/
def landmarkTerms (city : String) : List ModelResult → Option (List String)
  | [] => none
  | ModelResult.err :: rest => landmarkTerms city rest
  | ModelResult.ok text :: rest =>
    let landmarks := ((text.splitOn ",").take 4).map pyStrip
    if landmarks.length = 4 then some (landmarks.map (fun lm => city ++ " " ++ lm))
    else landmarkTerms city rest

/-- The search terms actually used: refined landmark terms when the key is
set and one of the three models yields exactly four names, the defaults
otherwise. -/
def searchTermsFor (env : ImagesEnv) (city : String) : List String :=
  if env.hasGeminiKey then
    match landmarkTerms city (env.termResponses.take 3) with
    | some ts => ts
    | none => defaultSearchTerms city
  else defaultSearchTerms city

/-- The guard `pexels_key and pexels_key != "your-pexels-api-key-here"`:
an unset or empty key is falsy. -/
def pexelsKeyUsable : Option String → Bool
  | none => false
  | some k => !(k == "") && !(k == "your-pexels-api-key-here")

/-- Base of the synthetic placeholder URLs. -/
def picsumBase : String := "https://picsum.photos/800/600?random="

/-- One `random.randint(100, 999)` draw, read off the environment stream. -/
def randIdent (rng : ℕ → ℕ) (i : ℕ) : ℕ := 100 + rng i % 900

/-- The four synthetic placeholder URLs built in the exception handler. -/
def placeholderImages (rng : ℕ → ℕ) : List String :=
  [picsumBase ++ toString (randIdent rng 0),
   picsumBase ++ toString (randIdent rng 1),
   picsumBase ++ toString (randIdent rng 2),
   picsumBase ++ toString (randIdent rng 3)]

/-- `generate_city_images` from `tools.py`. The placeholder URLs are built
only in the function-level `except` handler; when the Pexels key is unusable,
or fewer than four photos are collected without an exception, control falls
off the end of the function and Python returns `None`, modelled here as
`none`. -/
def generate_city_images (env : ImagesEnv) (city : String) : Option (List String) :=
  if env.outerExc then some (placeholderImages env.rng)
  else
    let terms := searchTermsFor env city
    if pexelsKeyUsable env.pexelsKey then
      let images := terms.filterMap env.photoAt
      if 4 ≤ images.length then some (images.take 4) else none
    else none

/-- One candidate of the Open-Meteo geocoding response, with the fields the
code reads through `r.get(...)`; `admin1` and `population` carry the
defaults `''` and `0` used there, `feature_code` is `None` when absent. -/
structure GeoResult where
  name : String
  feature_code : Option String
  admin1 : String
  population : ℕ
  latitude : ℚ
  longitude : ℚ
deriving DecidableEq, Repr

/-- Outcome of the geocoding interaction in `get_city_coordinates`:
any request failure, timeout or parsing exception, or a parsed candidate
list (possibly empty, which `if data.get("results")` treats like a miss). -/
inductive GeoService where
  | failure
  | ok (results : List GeoResult)

/-- The fixed allow-list of tourist regions in `get_city_coordinates`. -/
def tourist_regions : List String :=
  ["Himachal Pradesh", "Uttarakhand", "Goa", "Kerala", "Rajasthan",
   "Kashmir", "Sikkim", "Meghalaya", "Bali", "Tuscany", "Provence",
   "Bavaria", "Tyrol", "Queensland", "California", "Hawaii"]

/-- The place-type priority order of `get_city_coordinates`. -/
def priority_codes : List String := ["PPLC", "PPLA", "PPLA2", "PPLA3", "PPL"]

/-- First element of `r :: rest` attaining the maximal population: the
element Python's stable `sort(key=population, reverse=True)` followed by
`[0]` picks. -/
def maxPopFirst (r : GeoResult) (rest : List GeoResult) : GeoResult :=
  rest.foldl (fun best c => if best.population < c.population then c else best) r

/-- The candidates of `pool` whose `feature_code` equals `code`. -/
def classFor (pool : List GeoResult) (code : String) : List GeoResult :=
  pool.filter (fun r => r.feature_code == some code)

/-- The `for code in priority_codes` loop of `get_city_coordinates`: on the
first code with matching candidates, the best tourist-region candidate if
any, otherwise the best candidate of that code. -/
def selectByCode (pool : List GeoResult) : List String → Option GeoResult
  | [] => none
  | code :: rest =>
    match classFor pool code with
    | [] => selectByCode pool rest
    | m :: ms =>
      match (m :: ms).filter (fun r => tourist_regions.contains r.admin1) with
      | [] => some (maxPopFirst m ms)
      | t :: ts => some (maxPopFirst t ts)

/-- The exact-match restriction of `get_city_coordinates`: keep only the
candidates whose name equals `city.lower().strip()` case-insensitively,
unless there are none. -/
def restrictExact (city : String) (rs : List GeoResult) : List GeoResult :=
  match rs.filter (fun r => pyLower r.name == pyNormalize city) with
  | [] => rs
  | e :: es => e :: es

/-- Selection over the (possibly restricted) candidate pool: the
priority-code loop, then the most populated candidate, then the first. -/
def selectFromPool (pool : List GeoResult) : Option GeoResult :=
  match selectByCode pool priority_codes with
  | some r => some r
  | none =>
    match pool.filter (fun r => 0 < r.population) with
    | [] => pool.head?
    | p :: ps => some (maxPopFirst p ps)

/-- Candidate selection of `get_city_coordinates` over a parsed result list:
restrict to exact case-insensitive name matches when any exist, run the
priority-code loop, then fall back to the most populated candidate and
finally to the first one. -/
def selectCandidate (city : String) (results : List GeoResult) : Option GeoResult :=
  match results with
  | [] => none
  | r0 :: rs => selectFromPool (restrictExact city (r0 :: rs))

/-- `get_city_coordinates` from `tools.py`: a table hit returns the stored
coordinates without touching the geocoding service; otherwise the selected
candidate's coordinates, and the hardcoded Paris default on any failure or
empty result set. -/
def get_city_coordinates (geo : GeoService) (city : String) : ℚ × ℚ :=
  match (check_vector_store city).data with
  | some e => (e.latitude, e.longitude)
  | none =>
    match geo with
    | GeoService.failure => (48.8566, 2.3522)
    | GeoService.ok results =>
      match selectCandidate city results with
      | some r => (r.latitude, r.longitude)
      | none => (48.8566, 2.3522)

/-- `TravelState` from `state.py`. The declared type of `image_urls` is
`List[str]`, but `fetch_images_node` stores the raw result of
`generate_city_images`, which can be `None`; the field is therefore
modelled as an `Option`. -/
structure TravelState where
  city : String
  in_vector_store : Option Bool
  city_summary : String
  weather_forecast : List WeatherDay
  image_urls : Option (List String)
deriving DecidableEq, Repr

/-- The full environment of one pipeline run: deterministic responses of
every external service, per request. -/
structure Env where
  gemini : GeminiEnv
  weatherAt : ℚ → ℚ → WeatherService
  geocodeAt : String → GeoService
  images : ImagesEnv

/-- `check_knowledge_node` from `agent.py`. -/
def check_knowledge_node (s : TravelState) : TravelState :=
  { s with in_vector_store := some (check_vector_store s.city).found }

/-- `fetch_from_database_node` from `agent.py`: reads
`result["data"]["summary"]`; when `data` is `None` the subscript raises,
modelled as `none`. -/
def fetch_from_database_node (s : TravelState) : Option TravelState :=
  match (check_vector_store s.city).data with
  | some e => some { s with city_summary := e.summary }
  | none => none

/-- `fetch_from_web_node` from `agent.py`. -/
def fetch_from_web_node (env : GeminiEnv) (s : TravelState) : TravelState :=
  { s with city_summary := search_city_info env s.city }

/-- `fetch_weather_node` from `agent.py`: resolves coordinates, then fetches
the forecast for them. -/
def fetch_weather_node (env : Env) (s : TravelState) : TravelState :=
  let coords := get_city_coordinates (env.geocodeAt s.city) s.city
  { s with
      weather_forecast := get_weather_forecast (env.weatherAt coords.1 coords.2) coords.1 coords.2 }

/-- `fetch_images_node` from `agent.py`. -/
def fetch_images_node (env : Env) (s : TravelState) : TravelState :=
  { s with image_urls := generate_city_images env.images s.city }

/-- `should_use_database` from `agent.py`: routes on
`state.get("in_vector_store", False)`. -/
def should_use_database (s : TravelState) : String :=
  if s.in_vector_store.getD false then "database" else "web"

/-- Execution of the compiled graph of `create_travel_agent` on a state:
`check_knowledge`, then exactly the branch chosen by `should_use_database`,
then `fetch_weather`, then `fetch_images`. The returned list records the
names of the nodes run, in order. -/
def executeGraph (env : Env) (s0 : TravelState) : Option (List String × TravelState) :=
  let s1 := check_knowledge_node s0
  let branch : Option (String × TravelState) :=
    if should_use_database s1 == "database" then
      (fetch_from_database_node s1).map (fun s => ("fetch_from_database", s))
    else some ("fetch_from_web", fetch_from_web_node env.gemini s1)
  match branch with
  | none => none
  | some (nodeName, s2) =>
    let s3 := fetch_weather_node env s2
    let s4 := fetch_images_node env s3
    some (["check_knowledge", nodeName, "fetch_weather", "fetch_images"], s4)

/-- The initial state built by `run_agent`. -/
def initialState (city : String) : TravelState :=
  ⟨city, none, "", [], some []⟩

/-- `run_agent` from `agent.py`: compiles the graph and invokes it on a
fresh initial state. -/
def run_agent (env : Env) (city : String) : Option TravelState :=
  (executeGraph env (initialState city)).map Prod.snd

/-- Two invocations of the pipeline with the same city against the same
deterministic adapter responses. -/
def run_agent_twice (env : Env) (city : String) : Option TravelState × Option TravelState :=
  (run_agent env city, run_agent env city)

/-! Spec-side reading of the disambiguation ranking, written from the
specification's own words, to be compared with `selectCandidate` above. -/

/-- Spec reading: "first restrict to candidates whose returned name matches
the input case-insensitively exactly (if any exist)". -/
def specRestrict (city : String) (cs : List GeoResult) : List GeoResult :=
  if (cs.filter (fun r => pyLower r.name == pyNormalize city)).isEmpty then cs
  else cs.filter (fun r => pyLower r.name == pyNormalize city)

/-- Spec reading of "the highest-population candidate": the first candidate
attaining the maximal population, as a stable descending sort produces. -/
def bestByPopulation (l : List GeoResult) : Option GeoResult :=
  l.foldl
    (fun acc c =>
      match acc with
      | none => some c
      | some b => if b.population < c.population then some c else some b)
    none

/-- Spec reading of one place-type class: `none` when the class is empty,
otherwise the best tourist-region candidate when any exists, and the best
candidate of the class otherwise. -/
def specClassPick (pool : List GeoResult) (code : String) : Option GeoResult :=
  if (classFor pool code).isEmpty then none
  else
    if ((classFor pool code).filter (fun r => tourist_regions.contains r.admin1)).isEmpty then
      bestByPopulation (classFor pool code)
    else
      bestByPopulation ((classFor pool code).filter (fun r => tourist_regions.contains r.admin1))

/-- Spec reading of the pool-level choice: "take the first non-empty
place-type class in the priority order; if no class is non-empty, the
highest-population candidate overall; if none have population data, the
first returned candidate". -/
def specPickFromPool (pool : List GeoResult) : Option GeoResult :=
  match priority_codes.findSome? (specClassPick pool) with
  | some r => some r
  | none =>
    if (pool.filter (fun r => 0 < r.population)).isEmpty then pool.head?
    else bestByPopulation (pool.filter (fun r => 0 < r.population))

/-- The spec's full ranking over a candidate list. -/
def specRanking (city : String) (cs : List GeoResult) : Option GeoResult :=
  specPickFromPool (specRestrict city cs)

/-! Concrete environments and values used by the closed instantiations
below. -/

/-- Environment with no usable photo-search key and no exception: the
shortfall path of `generate_city_images`. -/
def c1Env : ImagesEnv := ⟨none, false, [], fun _ => none, false, fun _ => 0⟩

/-- Environment whose function-level exception fires while the random
stream is constant, so that all four placeholder identifiers coincide. -/
def c8Env : ImagesEnv := ⟨none, false, [], fun _ => none, true, fun _ => 0⟩

/-- The placeholder URL produced four times over under `c8Env`. -/
def dupPlaceholderUrl : String := "https://picsum.photos/800/600?random=100"

/-- Pipeline environment in which a model call succeeds with a
whitespace-only text. -/
def c2CexEnv : Env :=
  ⟨⟨true, [ModelResult.ok "   "]⟩, fun _ _ => WeatherService.otherError,
    fun _ => GeoService.failure, c1Env⟩

/-- Pipeline environment with every credential missing. -/
def c2WitnessEnv : Env :=
  ⟨⟨false, []⟩, fun _ _ => WeatherService.noKey, fun _ => GeoService.failure, c1Env⟩

/-- The final state of the run of `c2WitnessEnv` on `"paris"`. -/
def c2WitnessState : TravelState :=
  (run_agent c2WitnessEnv "paris").getD (initialState "paris")

/-- Pipeline environment with every credential missing, for the graph-shape
instantiation. -/
def c6Env : Env :=
  ⟨⟨false, []⟩, fun _ _ => WeatherService.noKey, fun _ => GeoService.failure, c1Env⟩

/-- Two geocoding candidates named alike, one a state capital in a
tourist region, one a more populated generic place. -/
def c5Candidates : List GeoResult :=
  [⟨"Shimla", some "PPL", "Haryana", 300000, 30, 77⟩,
   ⟨"Shimla", some "PPLA", "Himachal Pradesh", 169578, 31.1048, 77.1734⟩]

/-! Shared lemmas about the embedding. -/

/-- The `data` field of `check_vector_store` is the table lookup on the
normalized city. -/
lemma check_vector_store_data (city : String) :
    (check_vector_store city).data = dbLookup (pyNormalize city) := by
  unfold check_vector_store
  cases hd : dbLookup (pyNormalize city) <;> rfl

/-- The `found` field of `check_vector_store` is the success of the table
lookup on the normalized city. -/
lemma check_vector_store_found (city : String) :
    (check_vector_store city).found = (dbLookup (pyNormalize city)).isSome := by
  unfold check_vector_store
  cases hd : dbLookup (pyNormalize city) <;> rfl

/-- Membership in the key set agrees with success of the lookup. -/
lemma dbKeys_contains_eq (k : String) :
    dbKeys.contains k = (dbLookup k).isSome := by
  by_cases h1 : k = "paris"
  · subst h1; rfl
  by_cases h2 : k = "tokyo"
  · subst h2; rfl
  by_cases h3 : k = "new york"
  · subst h3; rfl
  have e1 : (k == "paris") = false := beq_eq_false_iff_ne.mpr h1
  have e1s : ("paris" == k) = false := beq_eq_false_iff_ne.mpr (Ne.symm h1)
  have e2 : (k == "tokyo") = false := beq_eq_false_iff_ne.mpr h2
  have e2s : ("tokyo" == k) = false := beq_eq_false_iff_ne.mpr (Ne.symm h2)
  have e3 : (k == "new york") = false := beq_eq_false_iff_ne.mpr h3
  have e3s : ("new york" == k) = false := beq_eq_false_iff_ne.mpr (Ne.symm h3)
  simp [dbKeys, dbLookup, CITY_DATABASE, List.contains, List.elem, List.find?,
    e1, e1s, e2, e2s, e3, e3s]

/-- A string with a non-empty suffix is non-empty. -/
lemma append_right_ne_empty (a b : String) (hb : b ≠ "") : a ++ b ≠ "" := by
  cases a with
  | mk as =>
    cases b with
    | mk bs =>
      intro h
      apply hb
      have hd : as ++ bs = ([] : List Char) := congrArg String.data h
      have hbs : bs = [] := (List.append_eq_nil.mp hd).2
      rw [hbs]

/-- Execution of the graph when the normalized city is in the table. -/
lemma executeGraph_of_lookup_some (env : Env) (s0 : TravelState) (e : CityEntry)
    (he : dbLookup (pyNormalize s0.city) = some e) :
    executeGraph env s0 =
      some (["check_knowledge", "fetch_from_database", "fetch_weather", "fetch_images"],
        fetch_images_node env (fetch_weather_node env
          { s0 with in_vector_store := some true, city_summary := e.summary })) := by
  have hf : (check_vector_store s0.city).found = true := by
    rw [check_vector_store_found, he]; rfl
  have hd : (check_vector_store s0.city).data = some e := by
    rw [check_vector_store_data, he]
  unfold executeGraph check_knowledge_node should_use_database fetch_from_database_node
  simp [hf, hd]

/-- Execution of the graph when the normalized city is not in the table. -/
lemma executeGraph_of_lookup_none (env : Env) (s0 : TravelState)
    (he : dbLookup (pyNormalize s0.city) = none) :
    executeGraph env s0 =
      some (["check_knowledge", "fetch_from_web", "fetch_weather", "fetch_images"],
        fetch_images_node env (fetch_weather_node env
          { s0 with in_vector_store := some false,
                    city_summary := search_city_info env.gemini s0.city })) := by
  have hf : (check_vector_store s0.city).found = false := by
    rw [check_vector_store_found, he]; rfl
  unfold executeGraph check_knowledge_node should_use_database fetch_from_web_node
  simp [hf]

/-- The weather node does not change the summary. -/
lemma fetch_weather_node_summary (env : Env) (s : TravelState) :
    (fetch_weather_node env s).city_summary = s.city_summary := rfl

/-- The images node does not change the summary. -/
lemma fetch_images_node_summary (env : Env) (s : TravelState) :
    (fetch_images_node env s).city_summary = s.city_summary := rfl

/-- The weather node does not change the routing flag. -/
lemma fetch_weather_node_flag (env : Env) (s : TravelState) :
    (fetch_weather_node env s).in_vector_store = s.in_vector_store := rfl

/-- The images node does not change the routing flag. -/
lemma fetch_images_node_flag (env : Env) (s : TravelState) :
    (fetch_images_node env s).in_vector_store = s.in_vector_store := rfl

/-- Folding the best-so-far accumulator from `some b` computes the first
maximal-population element. -/
lemma bestByPopulation_go (l : List GeoResult) :
    ∀ b : GeoResult,
      l.foldl
        (fun acc c =>
          match acc with
          | none => some c
          | some b2 => if b2.population < c.population then some c else some b2)
        (some b) = some (maxPopFirst b l) := by
  induction l with
  | nil => intro b; rfl
  | cons c cs ih =>
    intro b
    by_cases hc : b.population < c.population
    · simpa [List.foldl_cons, maxPopFirst, hc] using ih c
    · simpa [List.foldl_cons, maxPopFirst, hc] using ih b

/-- On a non-empty list, the spec's best-by-population choice is the first
maximal-population element, as the code's stable descending sort picks. -/
lemma bestByPopulation_cons (x : GeoResult) (xs : List GeoResult) :
    bestByPopulation (x :: xs) = some (maxPopFirst x xs) := by
  simpa [bestByPopulation, List.foldl_cons] using bestByPopulation_go xs x

/-- The priority-code loop of the code equals the spec's first-hit search
over the priority order. -/
lemma selectByCode_eq_findSome (pool : List GeoResult) (codes : List String) :
    selectByCode pool codes = codes.findSome? (specClassPick pool) := by
  induction codes with
  | nil => rfl
  | cons code rest ih =>
    cases hc : classFor pool code with
    | nil =>
      have hs : specClassPick pool code = none := by simp [specClassPick, hc]
      simp only [selectByCode, hc, List.findSome?_cons, hs]
      exact ih
    | cons m ms =>
      cases ht : (m :: ms).filter (fun r => tourist_regions.contains r.admin1) with
      | nil =>
        have hs : specClassPick pool code = some (maxPopFirst m ms) := by
          simp only [specClassPick, hc, ht]
          simp [bestByPopulation_cons]
        simp only [selectByCode, hc, ht, List.findSome?_cons, hs]
      | cons t ts =>
        have hs : specClassPick pool code = some (maxPopFirst t ts) := by
          simp only [specClassPick, hc, ht]
          simp [bestByPopulation_cons]
        simp only [selectByCode, hc, ht, List.findSome?_cons, hs]

/-- The code's exact-match restriction equals the spec's. -/
lemma restrictExact_eq_specRestrict (city : String) (cs : List GeoResult) :
    restrictExact city cs = specRestrict city cs := by
  unfold restrictExact specRestrict
  cases h : cs.filter (fun r => pyLower r.name == pyNormalize city) with
  | nil => rfl
  | cons e es => rfl

/-- The code's pool-level choice equals the spec's. -/
lemma selectFromPool_eq (pool : List GeoResult) :
    selectFromPool pool = specPickFromPool pool := by
  unfold selectFromPool specPickFromPool
  rw [selectByCode_eq_findSome]
  cases hf : priority_codes.findSome? (specClassPick pool) with
  | some r => rfl
  | none =>
    cases hp : pool.filter (fun r => 0 < r.population) with
    | nil => rfl
    | cons p ps => simp [bestByPopulation_cons]

/-- Field values of the synthetic forecast: exactly seven entries, with
`temp_max` 20+i, `temp_min` 10+i and zero precipitation. -/
lemma fallbackForecast_fields :
    fallbackForecast.length = 7 ∧
    ∀ i : Fin 7,
      (fallbackForecast[(i : ℕ)]?).map WeatherDay.temp_max = some (((20 + (i : ℕ) : ℕ)) : ℚ) ∧
      (fallbackForecast[(i : ℕ)]?).map WeatherDay.temp_min = some (((10 + (i : ℕ) : ℕ)) : ℚ) ∧
      (fallbackForecast[(i : ℕ)]?).map WeatherDay.precipitation = some 0 := by
  refine ⟨rfl, ?_⟩
  intro i
  fin_cases i <;> exact ⟨rfl, rfl, rfl⟩

/-! Claim theorems. -/

/-- C1: evaluation at the failing input. With no usable photo-search key and
no exception reaching the function-level handler, `generate_city_images`
collects fewer than four URLs, falls off the end of the function and returns
`None` — not four synthetic placeholder URLs as the claimed contract
demands. -/
theorem generate_city_images_shortfall_none :
    c1Env.outerExc = false ∧ generate_city_images c1Env "berlin" = none :=
  ⟨rfl, rfl⟩

/-- C2: counterexample. `"berlin"` is not in the table, yet when the model
call succeeds with whitespace-only text the pipeline stores the empty string
as the summary, so the summary of a non-table city need not be non-empty. -/
theorem pipeline_summary_empty_cex :
    dbKeys.contains (pyNormalize "berlin") = false ∧
    (run_agent c2CexEnv "berlin").map TravelState.city_summary = some "" :=
  ⟨rfl, rfl⟩

/-- C2 (amended): after the pipeline runs, `in_vector_store` equals table-key
membership of the normalized city, for table cities the summary is the
stored text exactly, and for all other cities the summary is the web-search
result — non-empty provided a successful model response does not trim to the
empty string (the missing-key message and the all-models-failed fallback are
always non-empty). -/
theorem pipeline_summary_spec (env : Env) (city : String) (s : TravelState)
    (h : run_agent env city = some s) :
    s.in_vector_store = some (dbKeys.contains (pyNormalize city)) ∧
    (∀ e, dbLookup (pyNormalize city) = some e → s.city_summary = e.summary) ∧
    (dbLookup (pyNormalize city) = none →
      (s.city_summary = search_city_info env.gemini city ∧
        ((∀ t, firstOk (env.gemini.responses.take models_to_try.length) = some t →
            pyStrip t ≠ "") →
          s.city_summary ≠ ""))) := by
  rw [dbKeys_contains_eq]
  cases he : dbLookup (pyNormalize city) with
  | some e =>
    have hg := executeGraph_of_lookup_some env (initialState city) e he
    unfold run_agent at h
    rw [hg] at h
    simp only [Option.map_some'] at h
    injection h with h
    subst h
    refine ⟨rfl, ?_, ?_⟩
    · intro e2 he2
      injection he2 with he2
      rw [← he2]
      rfl
    · intro hn
      exact absurd hn (by simp)
  | none =>
    have hg := executeGraph_of_lookup_none env (initialState city) he
    unfold run_agent at h
    rw [hg] at h
    simp only [Option.map_some'] at h
    injection h with h
    subst h
    refine ⟨rfl, ?_, ?_⟩
    · intro e2 he2
      exact absurd he2 (by simp)
    · intro _
      refine ⟨rfl, ?_⟩
      intro hok
      show search_city_info env.gemini city ≠ ""
      unfold search_city_info
      cases hk : env.gemini.hasApiKey with
      | false =>
        simp only [hk, if_pos]
        exact append_right_ne_empty city _ (by decide)
      | true =>
        simp [hk]
        cases hfo : firstOk (env.gemini.responses.take models_to_try.length) with
        | some t => simp only [hfo]; exact hok t hfo
        | none => simp only [hfo]; exact append_right_ne_empty city _ (by decide)

/-- C2: closed instantiation of `pipeline_summary_spec` on the table city
`"paris"`. -/
theorem pipeline_summary_spec_witness :
    (run_agent c2WitnessEnv "paris").map TravelState.city_summary = some parisSummary := by
  have hrun : run_agent c2WitnessEnv "paris" = some c2WitnessState := rfl
  have h := pipeline_summary_spec c2WitnessEnv "paris" c2WitnessState hrun
  have h2 := h.2.1 parisEntry rfl
  rw [hrun]
  simpa using h2

/-- C3: the weather adapter returns at most seven entries, and on every
unreachable-service path it returns exactly seven entries with
`temp_max` 20+i, `temp_min` 10+i and zero precipitation. -/
theorem get_weather_forecast_spec (svc : WeatherService) (lat lon : ℚ) :
    (get_weather_forecast svc lat lon).length ≤ 7 ∧
    (svc.isOk = false →
      (get_weather_forecast svc lat lon).length = 7 ∧
      ∀ i : Fin 7,
        ((get_weather_forecast svc lat lon)[(i : ℕ)]?).map WeatherDay.temp_max =
          some (((20 + (i : ℕ) : ℕ)) : ℚ) ∧
        ((get_weather_forecast svc lat lon)[(i : ℕ)]?).map WeatherDay.temp_min =
          some (((10 + (i : ℕ) : ℕ)) : ℚ) ∧
        ((get_weather_forecast svc lat lon)[(i : ℕ)]?).map WeatherDay.precipitation =
          some 0) := by
  cases svc with
  | ok tl =>
    constructor
    · show ((tl.take 7).map formatDay).length ≤ 7
      rw [List.length_map, List.length_take]
      exact min_le_left _ _
    · intro hfalse
      exact absurd hfalse (by simp [WeatherService.isOk])
  | noKey =>
    exact ⟨by show fallbackForecast.length ≤ 7; decide, fun _ => fallbackForecast_fields⟩
  | timeout =>
    exact ⟨by show fallbackForecast.length ≤ 7; decide, fun _ => fallbackForecast_fields⟩
  | requestError =>
    exact ⟨by show fallbackForecast.length ≤ 7; decide, fun _ => fallbackForecast_fields⟩
  | otherError =>
    exact ⟨by show fallbackForecast.length ≤ 7; decide, fun _ => fallbackForecast_fields⟩

/-- C3: closed instantiation of `get_weather_forecast_spec` on a timeout. -/
theorem get_weather_forecast_spec_witness :
    (get_weather_forecast WeatherService.timeout 0 0).length ≤ 7 ∧
    (get_weather_forecast WeatherService.timeout 0 0).length = 7 :=
  ⟨(get_weather_forecast_spec WeatherService.timeout 0 0).1,
   ((get_weather_forecast_spec WeatherService.timeout 0 0).2 rfl).1⟩

/-- C4: the coordinate resolver is total; on a table city it returns the
stored coordinates whatever the geocoding service would answer (no network
call is consulted), and on a miss with a failing request or an empty result
set it returns the fixed Paris default. -/
theorem get_city_coordinates_spec (city : String) (geo : GeoService) :
    (∀ e, dbLookup (pyNormalize city) = some e →
      get_city_coordinates geo city = (e.latitude, e.longitude)) ∧
    (dbLookup (pyNormalize city) = none →
      (geo = GeoService.failure ∨ geo = GeoService.ok []) →
      get_city_coordinates geo city = (48.8566, 2.3522)) := by
  constructor
  · intro e he
    have hd : (check_vector_store city).data = some e := by
      rw [check_vector_store_data, he]
    unfold get_city_coordinates
    rw [hd]
  · intro hn hgeo
    have hd : (check_vector_store city).data = none := by
      rw [check_vector_store_data, hn]
    unfold get_city_coordinates
    rw [hd]
    rcases hgeo with rfl | rfl
    · rfl
    · rfl

/-- C4: closed instantiation of `get_city_coordinates_spec` on the table
city `"Tokyo"` and on a miss with an empty result set. -/
theorem get_city_coordinates_spec_witness :
    get_city_coordinates GeoService.failure "Tokyo" = (35.6762, 139.6503) ∧
    get_city_coordinates (GeoService.ok []) "atlantis" = (48.8566, 2.3522) :=
  ⟨(get_city_coordinates_spec "Tokyo" GeoService.failure).1 tokyoEntry rfl,
   (get_city_coordinates_spec "atlantis" (GeoService.ok [])).2 rfl (Or.inr rfl)⟩

/-- C5: on every non-empty candidate list, the code's selection equals the
ranking stated by the specification: exact-name restriction, first
non-empty place-type class in priority order with tourist-region preference
and population tie-breaks, then highest population overall, then the first
candidate. -/
theorem selectCandidate_follows_ranking (city : String) (results : List GeoResult)
    (h : results ≠ []) :
    selectCandidate city results = specRanking city results := by
  cases results with
  | nil => exact absurd rfl h
  | cons r0 rs =>
    show selectFromPool (restrictExact city (r0 :: rs)) = specRanking city (r0 :: rs)
    unfold specRanking
    rw [selectFromPool_eq, restrictExact_eq_specRestrict]

/-- C5: closed instantiation of `selectCandidate_follows_ranking` on two
homonymous candidates. -/
theorem selectCandidate_follows_ranking_witness :
    selectCandidate "Shimla" c5Candidates = specRanking "Shimla" c5Candidates :=
  selectCandidate_follows_ranking "Shimla" c5Candidates (by decide)

/-- C6: every graph run executes exactly one of the two knowledge nodes,
that node runs before the weather node, and the database branch is taken
exactly when the routing step wrote `in_vector_store := some true`. -/
theorem graph_branch_exclusive (env : Env) (s0 : TravelState) :
    ∃ t s, executeGraph env s0 = some (t, s) ∧
      t.count "fetch_from_database" + t.count "fetch_from_web" = 1 ∧
      (t.count "fetch_from_database" = 1 ↔
        (check_knowledge_node s0).in_vector_store = some true) ∧
      (t.count "fetch_from_database" = 1 →
        t.indexOf "fetch_from_database" < t.indexOf "fetch_weather") ∧
      (t.count "fetch_from_web" = 1 →
        t.indexOf "fetch_from_web" < t.indexOf "fetch_weather") := by
  cases he : dbLookup (pyNormalize s0.city) with
  | some e =>
    refine ⟨_, _, executeGraph_of_lookup_some env s0 e he, by decide, ?_,
      fun _ => by decide, fun hw => absurd hw (by decide)⟩
    constructor
    · intro _
      have hf : (check_vector_store s0.city).found = true := by
        rw [check_vector_store_found, he]; rfl
      show some (check_vector_store s0.city).found = some true
      rw [hf]
    · intro _
      decide
  | none =>
    refine ⟨_, _, executeGraph_of_lookup_none env s0 he, by decide, ?_,
      fun hd => absurd hd (by decide), fun _ => by decide⟩
    constructor
    · intro hd
      exact absurd hd (by decide)
    · intro hvec
      have hf : (check_vector_store s0.city).found = false := by
        rw [check_vector_store_found, he]; rfl
      have hsome : some (check_vector_store s0.city).found = some true := hvec
      rw [hf] at hsome
      exact absurd hsome (by decide)

/-- C6: closed instantiation of `graph_branch_exclusive`: the run on
`"tokyo"` executes to completion. -/
theorem graph_branch_exclusive_witness :
    (executeGraph c6Env (initialState "tokyo")).isSome = true := by
  obtain ⟨t, s, hrun, -, -, -, -⟩ := graph_branch_exclusive c6Env (initialState "tokyo")
  rw [hrun]
  rfl

/-- C7: with the same city and the same deterministic adapter responses,
two pipeline invocations yield identical final states. -/
theorem run_agent_deterministic (env : Env) (city : String) :
    run_agent_twice env city = (run_agent env city, run_agent env city) ∧
    (run_agent_twice env city).1 = (run_agent_twice env city).2 :=
  ⟨rfl, rfl⟩

/-- C8: counterexample. On the synthetic fallback path with coinciding
random draws, all four placeholder URLs carry the same identifier, so the
identifiers are not pairwise distinct. -/
theorem placeholder_ids_not_distinct :
    generate_city_images c8Env "lyon" =
      some [dupPlaceholderUrl, dupPlaceholderUrl, dupPlaceholderUrl, dupPlaceholderUrl] ∧
    ¬ ([dupPlaceholderUrl, dupPlaceholderUrl, dupPlaceholderUrl,
        dupPlaceholderUrl] : List String).Nodup :=
  ⟨rfl, by decide⟩

/-- C8 (amended): whenever the synthetic fallback path is taken, the adapter
returns exactly the four placeholder URLs, each carrying a random identifier
in the range 100–999; the identifiers are independent draws and need not be
pairwise distinct. -/
theorem placeholder_images_spec (env : ImagesEnv) (city : String)
    (h : env.outerExc = true) :
    generate_city_images env city = some (placeholderImages env.rng) ∧
    (placeholderImages env.rng).length = 4 ∧
    ∀ u ∈ placeholderImages env.rng, ∃ id : ℕ,
      100 ≤ id ∧ id ≤ 999 ∧ u = picsumBase ++ toString id := by
  have hb : ∀ i, 100 ≤ randIdent env.rng i ∧ randIdent env.rng i ≤ 999 := by
    intro i
    unfold randIdent
    have hm : env.rng i % 900 < 900 := Nat.mod_lt _ (by norm_num)
    omega
  refine ⟨by simp [generate_city_images, h], rfl, ?_⟩
  intro u hu
  simp only [placeholderImages, List.mem_cons, List.not_mem_nil, or_false] at hu
  rcases hu with rfl | rfl | rfl | rfl
  · exact ⟨randIdent env.rng 0, (hb 0).1, (hb 0).2, rfl⟩
  · exact ⟨randIdent env.rng 1, (hb 1).1, (hb 1).2, rfl⟩
  · exact ⟨randIdent env.rng 2, (hb 2).1, (hb 2).2, rfl⟩
  · exact ⟨randIdent env.rng 3, (hb 3).1, (hb 3).2, rfl⟩

/-- C8: closed instantiation of `placeholder_images_spec`. -/
theorem placeholder_images_spec_witness :
    generate_city_images c8Env "nice" = some (placeholderImages c8Env.rng) :=
  (placeholder_images_spec c8Env "nice" rfl).1

/-- C9: under the routing precondition that the normalized city is a table
key, the lookup's `data` field is non-null and the local knowledge step
returns the table's summary verbatim, without failing. -/
theorem fetch_from_database_safe (s : TravelState) (e : CityEntry)
    (he : dbLookup (pyNormalize s.city) = some e) :
    (check_vector_store s.city).data = some e ∧
    fetch_from_database_node s = some { s with city_summary := e.summary } := by
  have hd : (check_vector_store s.city).data = some e := by
    rw [check_vector_store_data, he]
  refine ⟨hd, ?_⟩
  unfold fetch_from_database_node
  rw [hd]

/-- C9: closed instantiation of `fetch_from_database_safe` on `" Paris "`. -/
theorem fetch_from_database_safe_witness :
    fetch_from_database_node (initialState " Paris ") =
      some { initialState " Paris " with city_summary := parisSummary } :=
  (fetch_from_database_safe (initialState " Paris ") parisEntry rfl).2

/-- C10: on every fallback branch of the weather adapter the dates of the
seven synthetic entries are the fixed literal strings `"2025-12-12"`
through `"2025-12-18"`, with no dependence on any clock. -/
theorem fallback_dates_fixed (svc : WeatherService) (lat lon : ℚ)
    (h : svc.isOk = false) :
    (get_weather_forecast svc lat lon).map WeatherDay.date =
      ["2025-12-12", "2025-12-13", "2025-12-14", "2025-12-15",
       "2025-12-16", "2025-12-17", "2025-12-18"] := by
  cases svc with
  | ok tl => exact absurd h (by simp [WeatherService.isOk])
  | noKey => rfl
  | timeout => rfl
  | requestError => rfl
  | otherError => rfl

/-- C10: closed instantiation of `fallback_dates_fixed` on a missing
credential. -/
theorem fallback_dates_fixed_witness :
    (get_weather_forecast WeatherService.noKey 0 0).map WeatherDay.date =
      ["2025-12-12", "2025-12-13", "2025-12-14", "2025-12-15",
       "2025-12-16", "2025-12-17", "2025-12-18"] :=
  fallback_dates_fixed WeatherService.noKey 0 0 rfl

end TravelAssistant
